import Mathlib

/-!
Shallow embedding of the coherence-js-client core: the filter algebra,
the map-event dispatch subsystem (MapEventsManager / ListenerGroup), the
NamedCacheClient response handling and the Session lifecycle, together with
theorems settling the specification claims about them.
-/

namespace Coherence

/-- JSON-style values carried as keys, comparison bounds and payloads. -/
inductive JValue
| jnull
| jbool (b : Bool)
| jint (i : Int)
| jstr (s : String)
deriving DecidableEq

/-- Canonical text rendering of a value, the role JSON.stringify plays for
keys in MapEventsManager.stringify. -/
def JValue.stringifyJ : JValue → String
| .jnull => "null"
| .jbool b => if b then "true" else "false"
| .jint i => toString i
| .jstr s => "\"" ++ s ++ "\""

/-- Extractor tree: the client builds a UniversalExtractor for a plain
attribute name and a ChainedExtractor for a dot-delimited path. -/
inductive Extractor
| universal (name : String)
| chained (path : String)
deriving DecidableEq

/-- Argument accepted by filter constructors in filters.ts: either a
ValueExtractor instance or a method-name string. -/
inductive ExtractorOrMethod
| ext (e : Extractor)
| method (s : String)
deriving DecidableEq

/-- ExtractorFilter constructor logic: an extractor is used as given; a string
without a dot becomes a UniversalExtractor, a string with a dot becomes a
ChainedExtractor. -/
def ExtractorOrMethod.resolve : ExtractorOrMethod → Extractor
| .ext e => e
| .method s => if s.data.contains '.' then Extractor.chained s else Extractor.universal s

/-- Helper filterName of filters.ts: server-side type identifiers are
prefixed with "filter.". -/
def filterName (name : String) : String := "filter." ++ name

/-- Filter tree node. The fields collect the attributes the filter classes
carry: the server type tag, the child filter array (ArrayFilter), the
extractor and comparison value (ComparisonFilter), the from/to bounds
(BetweenFilter) and the event mask (MapEventFilter). -/
inductive Filter
| node (clazz : String) (filters : List Filter) (ext : Option Extractor)
    (value : Option JValue) (fromV : Option JValue) (toV : Option JValue)
    (mask : Option Nat)

/-- Server type tag of a filter node. -/
def Filter.clazz : Filter → String
| .node c _ _ _ _ _ _ => c

/-- Child filters of a filter node. -/
def Filter.children : Filter → List Filter
| .node _ fs _ _ _ _ _ => fs

mutual

def Filter.decEqF : (a b : Filter) → Decidable (a = b)
| .node c1 fs1 e1 v1 f1 t1 m1, .node c2 fs2 e2 v2 f2 t2 m2 =>
  match decEq c1 c2 with
  | isFalse h => isFalse (by intro hc; cases hc; exact h rfl)
  | isTrue hc =>
    match Filter.decEqList fs1 fs2 with
    | isFalse h => isFalse (by intro he; cases he; exact h rfl)
    | isTrue hf =>
      match decEq e1 e2, decEq v1 v2, decEq f1 f2, decEq t1 t2, decEq m1 m2 with
      | isTrue h3, isTrue h4, isTrue h5, isTrue h6, isTrue h7 =>
        isTrue (by rw [hc, hf, h3, h4, h5, h6, h7])
      | isFalse h3, _, _, _, _ => isFalse (by intro he; cases he; exact h3 rfl)
      | _, isFalse h4, _, _, _ => isFalse (by intro he; cases he; exact h4 rfl)
      | _, _, isFalse h5, _, _ => isFalse (by intro he; cases he; exact h5 rfl)
      | _, _, _, isFalse h6, _ => isFalse (by intro he; cases he; exact h6 rfl)
      | _, _, _, _, isFalse h7 => isFalse (by intro he; cases he; exact h7 rfl)

def Filter.decEqList : (a b : List Filter) → Decidable (a = b)
| [], [] => isTrue rfl
| [], _ :: _ => isFalse (by intro h; cases h)
| _ :: _, [] => isFalse (by intro h; cases h)
| x :: xs, y :: ys =>
  match Filter.decEqF x y with
  | isFalse h => isFalse (by intro he; cases he; exact h rfl)
  | isTrue hx =>
    match Filter.decEqList xs ys with
    | isFalse h => isFalse (by intro he; cases he; exact h rfl)
    | isTrue hxs => isTrue (by rw [hx, hxs])

end

instance : DecidableEq Filter := Filter.decEqF

/-- ComparisonFilter construction: tag, resolved extractor and the value to
compare with. -/
def ComparisonFilter.make (typeName : String) (em : ExtractorOrMethod) (v : JValue) : Filter :=
  Filter.node typeName [] (some em.resolve) (some v) none none none

/-- GreaterEqualsFilter of filters.ts. -/
def GreaterEqualsFilter (em : ExtractorOrMethod) (v : JValue) : Filter :=
  ComparisonFilter.make (filterName "GreaterEqualsFilter") em v

/-- GreaterFilter of filters.ts. -/
def GreaterFilter (em : ExtractorOrMethod) (v : JValue) : Filter :=
  ComparisonFilter.make (filterName "GreaterFilter") em v

/-- LessEqualsFilter of filters.ts. -/
def LessEqualsFilter (em : ExtractorOrMethod) (v : JValue) : Filter :=
  ComparisonFilter.make (filterName "LessEqualsFilter") em v

/-- LessFilter of filters.ts. -/
def LessFilter (em : ExtractorOrMethod) (v : JValue) : Filter :=
  ComparisonFilter.make (filterName "LessFilter") em v

/-- AllFilter: logical AND of a filter array, tagged "filter.AllFilter". -/
def AllFilter (fs : List Filter) : Filter :=
  Filter.node (filterName "AllFilter") fs none none none none none

/-- AndFilter extends AllFilter with two children and then overwrites the tag
with "filter.AndFilter". -/
def AndFilter (left right : Filter) : Filter :=
  match AllFilter [left, right] with
  | .node _ fs e v f t m => Filter.node (filterName "AndFilter") fs e v f t m

/-- BetweenFilter extends AndFilter: the children are GreaterEqualsFilter or
GreaterFilter on the lower bound and LessEqualsFilter or LessFilter on the
upper bound depending on the inclusion flags; the tag is then overwritten with
"filter.BetweenFilter" and the from/to bounds are recorded. -/
def BetweenFilter (em : ExtractorOrMethod) (fromV toV : JValue)
    (includeLowerBound includeUpperBound : Bool) : Filter :=
  match AndFilter
      (if includeLowerBound then GreaterEqualsFilter em fromV else GreaterFilter em fromV)
      (if includeUpperBound then LessEqualsFilter em toV else LessFilter em toV) with
  | .node _ fs e v _ _ m =>
    Filter.node (filterName "BetweenFilter") fs e v (some fromV) (some toV) m

/-- Filters.between factory; in the source the inclusion flags default to
true when omitted, here they are passed explicitly. -/
def Filters.between (em : ExtractorOrMethod) (fromV toV : JValue)
    (includeLowerBound includeUpperBound : Bool) : Filter :=
  BetweenFilter em fromV toV includeLowerBound includeUpperBound

/-- AlwaysFilter singleton instance. -/
def AlwaysFilter : Filter :=
  Filter.node (filterName "AlwaysFilter") [] none none none none none

/-- Filters.always factory, returning the AlwaysFilter singleton. -/
def Filters.always : Filter := AlwaysFilter

/-- MapEventFilter mask bit: insert events. -/
def MapEventFilter.E_INSERTED : Nat := 0x0001

/-- MapEventFilter mask bit: update events. -/
def MapEventFilter.E_UPDATED : Nat := 0x0002

/-- MapEventFilter mask bit: delete events. -/
def MapEventFilter.E_DELETED : Nat := 0x0004

/-- MapEventFilter mask bit: updates entering the filtered key set. -/
def MapEventFilter.E_UPDATED_ENTERED : Nat := 0x0008

/-- MapEventFilter mask bit: updates leaving the filtered key set. -/
def MapEventFilter.E_UPDATED_LEFT : Nat := 0x0010

/-- MapEventFilter mask bit: updates staying within the filtered key set. -/
def MapEventFilter.E_UPDATED_WITHIN : Nat := 0x0020

/-- MapEventFilter mask for all insert, update and delete events. -/
def MapEventFilter.E_ALL : Nat :=
  MapEventFilter.E_INSERTED ||| MapEventFilter.E_UPDATED ||| MapEventFilter.E_DELETED

/-- MapEventFilter default mask when constructed from a filter alone. -/
def MapEventFilter.E_KEYSET : Nat :=
  MapEventFilter.E_INSERTED ||| MapEventFilter.E_DELETED |||
    MapEventFilter.E_UPDATED_ENTERED ||| MapEventFilter.E_UPDATED_LEFT

/-- MapEventFilter one-argument constructor applied to a Filter: the mask
defaults to E_KEYSET and the filter is recorded as the only child. -/
def MapEventFilter.ofFilter (f : Filter) : Filter :=
  Filter.node (filterName "MapEventFilter") [f] none none none none
    (some MapEventFilter.E_KEYSET)

/-- Text rendering of an extractor, part of the canonical stringification. -/
def Extractor.stringifyE : Extractor → String
| .universal n => "universal(" ++ "\"" ++ n ++ "\")"
| .chained p => "chained(" ++ "\"" ++ p ++ "\")"

/-- Text rendering of an optional component. -/
def optionStr {α : Type} (f : α → String) : Option α → String
| none => "null"
| some a => f a

mutual

/-- Deterministic structural rendering of a filter, the role JSON.stringify
plays for filter keys in MapEventsManager.stringify. -/
def Filter.stringify : Filter → String
| .node clazz fs e v fromV toV mask =>
  "[" ++ clazz ++ ";" ++ Filter.stringifyList fs ++ ";" ++
    optionStr Extractor.stringifyE e ++ ";" ++
    optionStr JValue.stringifyJ v ++ ";" ++
    optionStr JValue.stringifyJ fromV ++ ";" ++
    optionStr JValue.stringifyJ toV ++ ";" ++
    optionStr toString mask ++ "]"

/-- Rendering of a child filter array. -/
def Filter.stringifyList : List Filter → String
| [] => ""
| f :: fs => Filter.stringify f ++ "," ++ Filter.stringifyList fs

end

/-- Claim C5, counterexample: the filter built by between is tagged
"filter.BetweenFilter" (filterName prefixes "filter."), not "BetweenFilter"
as the claim states. -/
theorem C5_counterexample :
    (Filters.between (ExtractorOrMethod.method "age") (JValue.jint 18) (JValue.jint 65)
        true false).clazz ≠ "BetweenFilter" := by decide

/-- Claim C5 (amended): between(x, from, to, incLower, incUpper) is an AND
node tagged "filter.BetweenFilter" whose two children are
GreaterEqualsFilter(x, from) if incLower else GreaterFilter(x, from), and
LessEqualsFilter(x, to) if incUpper else LessFilter(x, to); in particular
between("age", 18, 65, true, false) wraps GreaterEqualsFilter(age, 18) and
LessFilter(age, 65) with a Universal("age") extractor. -/
theorem C5_theorem (em : ExtractorOrMethod) (fromV toV : JValue) (incL incU : Bool) :
    Filters.between em fromV toV incL incU =
      Filter.node "filter.BetweenFilter"
        [if incL then GreaterEqualsFilter em fromV else GreaterFilter em fromV,
         if incU then LessEqualsFilter em toV else LessFilter em toV]
        none none (some fromV) (some toV) none
    ∧ Filters.between (ExtractorOrMethod.method "age") (JValue.jint 18) (JValue.jint 65)
        true false =
      Filter.node "filter.BetweenFilter"
        [Filter.node "filter.GreaterEqualsFilter" [] (some (Extractor.universal "age"))
            (some (JValue.jint 18)) none none none,
         Filter.node "filter.LessFilter" [] (some (Extractor.universal "age"))
            (some (JValue.jint 65)) none none none]
        none none (some (JValue.jint 18)) (some (JValue.jint 65)) none := by
  constructor
  · cases incL <;> cases incU <;> rfl
  · decide

/-- Association-list update with JavaScript Map.set semantics: an existing
key keeps its position in insertion order, a new key is appended. -/
def assocSet {α β : Type} [DecidableEq α] (m : List (α × β)) (k : α) (v : β) :
    List (α × β) :=
  if (m.lookup k).isSome then m.map (fun p => if p.1 = k then (k, v) else p)
  else m ++ [(k, v)]

/-- Subscription requests a listener group writes to the event stream:
mapListenerRequest(true, target, isLite) and mapListenerRequest(false, target). -/
inductive SubRequest
| subscribe (isLite : Bool)
| unsubscribe
deriving DecidableEq

/-- ListenerGroup state. Listeners are opaque handles (the source compares
them by object identity); each carries its isLite flag, in insertion order as
a JavaScript Map does. -/
structure ListenerGroup where
  isActive : Bool
  registeredIsLite : Bool
  listeners : List (Nat × Bool)
  isLiteFalseCount : Nat
deriving DecidableEq

/-- A freshly constructed ListenerGroup: active, registered lite, empty. -/
def ListenerGroup.new : ListenerGroup :=
  { isActive := true, registeredIsLite := true, listeners := [], isLiteFalseCount := 0 }

/-- ListenerGroup.addListener. Returns the updated group and the subscription
requests written, in order. A listener already present with the same isLite
flag is a no-op; otherwise the listener is stored, the non-lite count is
updated, and a registration request is required when the group has exactly one
listener after the insert or when the registration was lite and the incoming
listener is non-lite; in the latter case an unsubscribe precedes the subscribe
only when more than one listener is present after the insert. -/
def ListenerGroup.addListener (g : ListenerGroup) (listener : Nat) (isLite : Bool) :
    ListenerGroup × List SubRequest :=
  if g.listeners.lookup listener = some isLite then
    (g, [])
  else if (assocSet g.listeners listener isLite).length = 1 ∨
      (g.registeredIsLite = true ∧ isLite = false) then
    if 1 < (assocSet g.listeners listener isLite).length then
      ({ g with
          listeners := assocSet g.listeners listener isLite
          isLiteFalseCount :=
            if isLite = false then g.isLiteFalseCount + 1 else g.isLiteFalseCount
          registeredIsLite := isLite },
       [SubRequest.unsubscribe, SubRequest.subscribe isLite])
    else
      ({ g with
          listeners := assocSet g.listeners listener isLite
          isLiteFalseCount :=
            if isLite = false then g.isLiteFalseCount + 1 else g.isLiteFalseCount
          registeredIsLite := isLite },
       [SubRequest.subscribe isLite])
  else
    ({ g with
        listeners := assocSet g.listeners listener isLite
        isLiteFalseCount :=
          if isLite = false then g.isLiteFalseCount + 1 else g.isLiteFalseCount },
     [])

/-- ListenerGroup.removeListener. Returns the updated group, the requests
written, and whether the group unsubscribed entirely (postUnsubscribe then
removes it from its owning index). -/
def ListenerGroup.removeListener (g : ListenerGroup) (listener : Nat) :
    ListenerGroup × List SubRequest × Bool :=
  match g.listeners.lookup listener with
  | none => (g, [], false)
  | some prevLite =>
    if (g.listeners.filter (fun p => p.1 != listener)).length = 0 then
      ({ g with listeners := g.listeners.filter (fun p => p.1 != listener) },
       [SubRequest.unsubscribe], true)
    else if prevLite = false then
      if g.isLiteFalseCount - 1 = 0 then
        ({ g with
            listeners := g.listeners.filter (fun p => p.1 != listener)
            isLiteFalseCount := g.isLiteFalseCount - 1 },
         [SubRequest.unsubscribe, SubRequest.subscribe true], false)
      else
        ({ g with
            listeners := g.listeners.filter (fun p => p.1 != listener)
            isLiteFalseCount := g.isLiteFalseCount - 1 }, [], false)
    else
      ({ g with listeners := g.listeners.filter (fun p => p.1 != listener) }, [], false)

lemma mem_of_lookup_eq_some {α β : Type} [DecidableEq α] {m : List (α × β)} {k : α}
    {v : β} (h : m.lookup k = some v) : (k, v) ∈ m := by
  induction m with
  | nil => cases h
  | cons a t ih =>
    obtain ⟨k1, v1⟩ := a
    simp only [List.lookup] at h
    cases hbeq : (k == k1) with
    | true =>
      rw [hbeq] at h
      simp only [Option.some.injEq] at h
      have hk : k = k1 := eq_of_beq hbeq
      subst hk
      subst h
      exact List.mem_cons_self _ _
    | false =>
      rw [hbeq] at h
      exact List.mem_cons_of_mem _ (ih h)

lemma lookup_isSome_of_mem {α β : Type} [DecidableEq α] {m : List (α × β)} {k : α}
    {v : β} (h : (k, v) ∈ m) : (m.lookup k).isSome := by
  induction m with
  | nil => cases h
  | cons a t ih =>
    obtain ⟨k1, v1⟩ := a
    simp only [List.lookup]
    cases hbeq : (k == k1) with
    | true => simp [hbeq]
    | false =>
      simp only [hbeq]
      rcases List.mem_cons.mp h with h1 | h1
      · cases h1
        simp at hbeq
      · exact ih h1

lemma one_lt_length_of_two_mem {α : Type} {p q : α} {m : List α}
    (hp : p ∈ m) (hq : q ∈ m) (hne : p ≠ q) : 1 < m.length := by
  match m with
  | [] => cases hp
  | [a] =>
    rw [List.mem_singleton] at hp hq
    exact absurd (hp.trans hq.symm) hne
  | a :: b :: t =>
    simp only [List.length_cons]
    omega

lemma length_le_one_of_nodup_const {α : Type} {m : List α} {l : α}
    (hn : m.Nodup) (hc : ∀ x ∈ m, x = l) : m.length ≤ 1 := by
  match m with
  | [] => simp
  | [a] => simp
  | a :: b :: t =>
    have ha := hc a (by simp)
    have hb := hc b (by simp)
    rw [List.nodup_cons] at hn
    exact absurd (by rw [ha, hb.symm]; exact List.mem_cons_self _ _) hn.1

lemma assocSet_length_isSome {α β : Type} [DecidableEq α] (m : List (α × β)) (k : α)
    (v : β) (h : (m.lookup k).isSome = true) : (assocSet m k v).length = m.length := by
  simp [assocSet, h]

lemma assocSet_length_none {α β : Type} [DecidableEq α] (m : List (α × β)) (k : α)
    (v : β) (h : m.lookup k = none) : (assocSet m k v).length = m.length + 1 := by
  simp [assocSet, h]

/-- Claim C2, counterexample: a group whose only listener is registered lite,
re-registering that same listener as non-lite. Only a SUBSCRIBE(non-lite) is
written; no UNSUBSCRIBE precedes it, because the group holds a single listener
after the insert. -/
theorem C2_counterexample :
    (ListenerGroup.addListener
        { isActive := true, registeredIsLite := true,
          listeners := [(1, true)], isLiteFalseCount := 0 } 1 false).2
      = [SubRequest.subscribe false] ∧
    (ListenerGroup.addListener
        { isActive := true, registeredIsLite := true,
          listeners := [(1, true)], isLiteFalseCount := 0 } 1 false).2
      ≠ [SubRequest.unsubscribe, SubRequest.subscribe false] := by
  constructor
  · decide
  · decide

/-- Claim C2 (amended): on a group registered lite, adding a non-lite listener
issues UNSUBSCRIBE then SUBSCRIBE(non-lite) when some other listener is
present in the group; when the group's sole listener upgrades from lite to
non-lite (or the group was empty) only a SUBSCRIBE(non-lite) is issued; and
re-adding a listener already present with the same isLite flag performs no
request and leaves the group unchanged. -/
theorem C2_theorem (g : ListenerGroup) (l : Nat)
    (hnodup : (g.listeners.map Prod.fst).Nodup)
    (hreg : g.registeredIsLite = true)
    (hprev : g.listeners.lookup l ≠ some false) :
    ((∃ p, p ∈ g.listeners ∧ p.1 ≠ l) →
      (g.addListener l false).2 = [SubRequest.unsubscribe, SubRequest.subscribe false])
    ∧ ((∀ p, p ∈ g.listeners → p.1 = l) →
      (g.addListener l false).2 = [SubRequest.subscribe false])
    ∧ (∀ (l2 : Nat) (lite : Bool), g.listeners.lookup l2 = some lite →
      g.addListener l2 lite = (g, [])) := by
  refine ⟨?_, ?_, ?_⟩
  · rintro ⟨p, hpmem, hpne⟩
    have hlen : 1 < (assocSet g.listeners l false).length := by
      cases hcase : g.listeners.lookup l with
      | none =>
        rw [assocSet_length_none _ _ _ hcase]
        have : 0 < g.listeners.length := List.length_pos.mpr (by
          intro hnil; rw [hnil] at hpmem; cases hpmem)
        omega
      | some b =>
        rw [assocSet_length_isSome _ _ _ (by rw [hcase]; rfl)]
        have hmem : (l, b) ∈ g.listeners := mem_of_lookup_eq_some hcase
        exact one_lt_length_of_two_mem hpmem hmem (by
          intro hpq; exact hpne (by rw [hpq]))
    unfold ListenerGroup.addListener
    rw [if_neg hprev, if_pos (Or.inr ⟨hreg, rfl⟩), if_pos hlen]
  · intro hsole
    have hlen : ¬ 1 < (assocSet g.listeners l false).length := by
      cases hcase : g.listeners.lookup l with
      | none =>
        rw [assocSet_length_none _ _ _ hcase]
        have hnil : g.listeners = [] := by
          cases hl : g.listeners with
          | nil => rfl
          | cons a t =>
            have ha : a.1 = l := hsole a (by rw [hl]; exact List.mem_cons_self _ _)
            have : (g.listeners.lookup l).isSome := by
              refine lookup_isSome_of_mem (v := a.2) ?_
              rw [← ha]
              rw [hl]; exact List.mem_cons_self _ _
            rw [hcase] at this
            cases this
        rw [hnil]
        simp
      | some b =>
        rw [assocSet_length_isSome _ _ _ (by rw [hcase]; rfl)]
        have : g.listeners.length ≤ 1 := by
          have hml : (g.listeners.map Prod.fst).length ≤ 1 :=
            length_le_one_of_nodup_const hnodup (by
              intro x hx
              obtain ⟨p, hpm, hpx⟩ := List.mem_map.mp hx
              rw [← hpx]; exact hsole p hpm)
          rw [List.length_map] at hml
          exact hml
        omega
    unfold ListenerGroup.addListener
    have hone : (assocSet g.listeners l false).length = 1 := by
      cases hcase : g.listeners.lookup l with
      | none =>
        rw [assocSet_length_none _ _ _ hcase] at hlen ⊢
        omega
      | some b =>
        have := assocSet_length_isSome g.listeners l false (by rw [hcase]; rfl)
        rw [this] at hlen ⊢
        have hmem : (l, b) ∈ g.listeners := mem_of_lookup_eq_some hcase
        have : 0 < g.listeners.length := List.length_pos.mpr (by
          intro hnil; rw [hnil] at hmem; cases hmem)
        omega
    rw [if_neg hprev, if_pos (Or.inl hone), if_neg hlen]
  · intro l2 lite hl2
    unfold ListenerGroup.addListener
    rw [if_pos hl2]

/-- Claim C2 amended-theorem witness: a group holding two lite listeners; the
second one upgrading to non-lite produces UNSUBSCRIBE then SUBSCRIBE. -/
theorem C2_witness :
    (ListenerGroup.addListener
        { isActive := true, registeredIsLite := true,
          listeners := [(1, true), (2, true)], isLiteFalseCount := 0 } 2 false).2
      = [SubRequest.unsubscribe, SubRequest.subscribe false] :=
  (C2_theorem
    { isActive := true, registeredIsLite := true,
      listeners := [(1, true), (2, true)], isLiteFalseCount := 0 } 2
    (by decide) rfl (by decide)).1 ⟨(1, true), by decide, by decide⟩

/-- Kinds of map-event callbacks. Modelled from the spec: map_event.ts is not
under src/; the spec fixes event kind ∈ \x7binserted, updated, deleted\x7d and
notifyListeners dispatches on MapEvent.ENTRY_INSERTED / ENTRY_UPDATED /
ENTRY_DELETED accordingly. -/
inductive EventCallKind
| inserted
| updated
| deleted
deriving DecidableEq

/-- MapEventsManager state: the cache name, the close flag, the
pending-subscriptions map (uid to an opaque callback handle), and the three
listener indices keyMap (stringified key), filterMap (stringified filter) and
filterId2ListenerGroup (server-assigned filter id). -/
structure EventsManagerState where
  cacheName : String
  markedForClose : Bool
  pendingSubscriptions : List (String × Nat)
  keyMap : List (String × ListenerGroup)
  filterMap : List (String × ListenerGroup)
  filterId2ListenerGroup : List (Nat × ListenerGroup)
deriving DecidableEq

/-- Events the dispatcher emits on the owning NamedCacheClient. -/
inductive CacheEmit
| closedGraceful (cacheName : String)
| errorEmit (cacheName : String) (err : Nat)
deriving DecidableEq

/-- MapEventsManager.onError: when close was requested the stream failure is
reported as a graceful close; otherwise an error event carrying the cache
name and the error is emitted on the owning cache. Nothing else in the state
is touched. -/
def MapEventsManager.onError (s : EventsManagerState) (err : Nat) :
    EventsManagerState × List CacheEmit :=
  if s.markedForClose then
    ({ s with markedForClose := false }, [CacheEmit.closedGraceful s.cacheName])
  else
    (s, [CacheEmit.errorEmit s.cacheName err])

/-- A sample dispatcher state with one pending subscription, one key group
and no filter groups. -/
def sampleManagerState : EventsManagerState :=
  { cacheName := "c"
    markedForClose := false
    pendingSubscriptions := [("uid-1", 0)]
    keyMap := [("\"k\"", ListenerGroup.new)]
    filterMap := []
    filterId2ListenerGroup := [] }

/-- Claim C3, evaluation at the failing input: on a stream error with
markedForClose = false the dispatcher emits error(cacheName, err) and leaves
the state untouched — in particular the pending-subscriptions map keeps its
entry (its callback is never invoked with the error) and the listener indices
keep their groups, contradicting the claim that every pending callback is
failed and the pending map left empty. -/
theorem C3_theorem :
    MapEventsManager.onError sampleManagerState 5
        = (sampleManagerState, [CacheEmit.errorEmit "c" 5])
    ∧ (MapEventsManager.onError sampleManagerState 5).1.pendingSubscriptions
        = [("uid-1", 0)]
    ∧ sampleManagerState.pendingSubscriptions ≠ [] := by
  refine ⟨rfl, rfl, ?_⟩
  decide

/-- ListenerGroup.notifyListeners: every listener of the group is invoked
exactly once, in insertion order, through the callback matching the event
kind. The result lists the invocations in order. -/
def ListenerGroup.notifyListeners (g : ListenerGroup) (kind : EventCallKind) :
    List (Nat × EventCallKind) :=
  g.listeners.map (fun p => (p.1, kind))

/-- MapEventsManager.handleResponse, EVENT case: for each filter id carried by
the event, the group registered under that id (if any) is notified; then the
group registered for the stringified event key (if any) is notified. The
result is the full invocation sequence of the event. -/
def MapEventsManager.handleEvent (s : EventsManagerState) (filterIds : List Nat)
    (eventKey : JValue) (kind : EventCallKind) : List (Nat × EventCallKind) :=
  (filterIds.flatMap fun id =>
    match s.filterId2ListenerGroup.lookup id with
    | some group => group.notifyListeners kind
    | none => []) ++
  (match s.keyMap.lookup (JValue.stringifyJ eventKey) with
   | some keyGroup => keyGroup.notifyListeners kind
   | none => [])

/-- Listeners of the filter group registered under a server filter id
(empty when the id is unknown). -/
def MapEventsManager.filterGroupMembers (s : EventsManagerState) (id : Nat) :
    List Nat :=
  match s.filterId2ListenerGroup.lookup id with
  | some g => g.listeners.map Prod.fst
  | none => []

lemma count_pair_map (kind : EventCallKind) (l : Nat) (ls : List Nat) :
    ((ls.map (fun x => (x, kind))).count (l, kind)) = ls.count l := by
  induction ls with
  | nil => rfl
  | cons a t ih =>
    simp only [List.map_cons, List.count_cons, ih]
    by_cases h : a = l
    · simp [h]
    · simp [h]

lemma notify_segment_eq (s : EventsManagerState) (id : Nat) (kind : EventCallKind) :
    (match s.filterId2ListenerGroup.lookup id with
      | some group => group.notifyListeners kind
      | none => []) =
    (MapEventsManager.filterGroupMembers s id).map (fun x => (x, kind)) := by
  unfold MapEventsManager.filterGroupMembers
  cases s.filterId2ListenerGroup.lookup id with
  | none => rfl
  | some g => simp [ListenerGroup.notifyListeners, List.map_map, Function.comp]

lemma count_flatMap_members (s : EventsManagerState) (ids : List Nat)
    (kind : EventCallKind) (l : Nat)
    (hg : ∀ p ∈ s.filterId2ListenerGroup, (p.2.listeners.map Prod.fst).Nodup) :
    ((ids.flatMap fun id =>
        match s.filterId2ListenerGroup.lookup id with
        | some group => group.notifyListeners kind
        | none => []).count (l, kind)) =
      (ids.filter
        (fun id => decide (l ∈ MapEventsManager.filterGroupMembers s id))).length := by
  induction ids with
  | nil => rfl
  | cons a t ih =>
    rw [List.flatMap_cons, List.count_append, ih, notify_segment_eq, count_pair_map]
    have hnd : (MapEventsManager.filterGroupMembers s a).Nodup := by
      unfold MapEventsManager.filterGroupMembers
      cases hl : s.filterId2ListenerGroup.lookup a with
      | none => exact List.nodup_nil
      | some g => exact hg (a, g) (mem_of_lookup_eq_some hl)
    by_cases hmem : l ∈ MapEventsManager.filterGroupMembers s a
    · rw [List.count_eq_one_of_mem hnd hmem]
      simp [List.filter_cons, hmem]
      omega
    · rw [List.count_eq_zero.mpr hmem]
      simp [List.filter_cons, hmem]

lemma sublist_flatMap_of_mem {α β : Type} (f : α → List β) {ids : List α} {a : α}
    (h : a ∈ ids) : List.Sublist (f a) (ids.flatMap f) := by
  induction ids with
  | nil => cases h
  | cons b t ih =>
    rw [List.flatMap_cons]
    rcases List.mem_cons.mp h with h1 | h1
    · subst h1; exact List.sublist_append_left _ _
    · exact (ih h1).trans (List.sublist_append_right _ _)

/-- Claim C1: on an inbound EVENT whose stringified key has a registered key
group, a listener is invoked exactly once per matching filter id whose group
contains it plus once if it belongs to the key group (once per group
membership); the key group's invocations form the final segment of the
sequence in insertion order, and every matched filter group's invocations
appear in insertion order. -/
theorem C1_theorem (s : EventsManagerState) (filterIds : List Nat) (eventKey : JValue)
    (kind : EventCallKind) (kg : ListenerGroup) (l : Nat)
    (hk : s.keyMap.lookup (JValue.stringifyJ eventKey) = some kg)
    (hkg : (kg.listeners.map Prod.fst).Nodup)
    (hg : ∀ p ∈ s.filterId2ListenerGroup, (p.2.listeners.map Prod.fst).Nodup) :
    ((MapEventsManager.handleEvent s filterIds eventKey kind).count (l, kind) =
      (filterIds.filter
        (fun id => decide (l ∈ MapEventsManager.filterGroupMembers s id))).length +
      (if l ∈ kg.listeners.map Prod.fst then 1 else 0))
    ∧ (∃ pre, MapEventsManager.handleEvent s filterIds eventKey kind =
        pre ++ kg.notifyListeners kind)
    ∧ (∀ id, id ∈ filterIds →
        List.Sublist
          ((MapEventsManager.filterGroupMembers s id).map (fun x => (x, kind)))
          (MapEventsManager.handleEvent s filterIds eventKey kind)) := by
  refine ⟨?_, ?_, ?_⟩
  · unfold MapEventsManager.handleEvent
    rw [hk]
    have hflat := count_flatMap_members s filterIds kind l hg
    simp only [List.count_append, hflat, ListenerGroup.notifyListeners]
    congr 1
    rw [show (kg.listeners.map (fun p => (p.1, kind))) =
        (kg.listeners.map Prod.fst).map (fun x => (x, kind)) by
      simp [List.map_map, Function.comp]]
    rw [count_pair_map]
    by_cases hmem : l ∈ kg.listeners.map Prod.fst
    · rw [List.count_eq_one_of_mem hkg hmem, if_pos hmem]
    · rw [List.count_eq_zero.mpr hmem, if_neg hmem]
  · refine ⟨(filterIds.flatMap fun id =>
      match s.filterId2ListenerGroup.lookup id with
      | some group => group.notifyListeners kind
      | none => []), ?_⟩
    unfold MapEventsManager.handleEvent
    rw [hk]
  · intro id hid
    unfold MapEventsManager.handleEvent
    refine List.Sublist.trans ?_ (List.sublist_append_left _ _)
    rw [← notify_segment_eq]
    exact sublist_flatMap_of_mem
      (fun id => match s.filterId2ListenerGroup.lookup id with
        | some group => group.notifyListeners kind
        | none => []) hid

/-- Concrete filter group used by the C1 witness. -/
def c1FilterGroup : ListenerGroup :=
  { isActive := true, registeredIsLite := false,
    listeners := [(10, false), (11, false)], isLiteFalseCount := 2 }

/-- Concrete key group used by the C1 witness. -/
def c1KeyGroup : ListenerGroup :=
  { isActive := true, registeredIsLite := false,
    listeners := [(11, false), (12, false)], isLiteFalseCount := 2 }

/-- Concrete dispatcher state used by the C1 witness: filter id 7 routes to
the filter group and key "k" routes to the key group. -/
def c1State : EventsManagerState :=
  { cacheName := "c"
    markedForClose := false
    pendingSubscriptions := []
    keyMap := [("\"k\"", c1KeyGroup)]
    filterMap := []
    filterId2ListenerGroup := [(7, c1FilterGroup)] }

/-- Claim C1 witness: listener 11 belongs to both the matched filter group
and the key group, so it is invoked exactly twice for the event. -/
theorem C1_witness :
    (MapEventsManager.handleEvent c1State [7] (JValue.jstr "k")
        EventCallKind.inserted).count (11, EventCallKind.inserted) = 2 := by
  have h := (C1_theorem c1State [7] (JValue.jstr "k") EventCallKind.inserted
      c1KeyGroup 11 (by decide) (by decide) (by decide)).1
  rw [h]
  decide

/-- MapEventsManager.DEFAULT_FILTER: a singleton MapEventFilter wrapping
Filters.always(), substituted whenever a null filter is passed. -/
def MapEventsManager.DEFAULT_FILTER : Filter :=
  MapEventFilter.ofFilter Filters.always

/-- MapEventsManager.registerFilterListener: a null filter is replaced by
DEFAULT_FILTER; the filter is stringified to index filterMap; a missing group
is created; then ListenerGroup.addListener runs. Returns the updated state
and the requests written. The filter-id index update performed by
postSubscribe when the server reply arrives is not modelled here. -/
def MapEventsManager.registerFilterListener (s : EventsManagerState) (listener : Nat)
    (mapFilter : Option Filter) (isLite : Bool) :
    EventsManagerState × List SubRequest :=
  let f := match mapFilter with
    | none => MapEventsManager.DEFAULT_FILTER
    | some mf => mf
  let stringifiedFilter := Filter.stringify f
  let group := match s.filterMap.lookup stringifiedFilter with
    | some g => g
    | none => ListenerGroup.new
  let r := group.addListener listener isLite
  ({ s with filterMap := assocSet s.filterMap stringifiedFilter r.1 }, r.2)

/-- MapEventsManager.removeFilterListener: a null filter is replaced by
DEFAULT_FILTER; when no group is registered under the stringified filter the
call resolves with no request; otherwise ListenerGroup.removeListener runs,
and when the group unsubscribed entirely filterGroupUnsubscribed removes it
from filterMap. -/
def MapEventsManager.removeFilterListener (s : EventsManagerState) (listener : Nat)
    (mapFilter : Option Filter) : EventsManagerState × List SubRequest :=
  let f := match mapFilter with
    | none => MapEventsManager.DEFAULT_FILTER
    | some mf => mf
  let stringifiedFilter := Filter.stringify f
  match s.filterMap.lookup stringifiedFilter with
  | none => (s, [])
  | some g =>
    let r := g.removeListener listener
    if r.2.2 then
      ({ s with filterMap := s.filterMap.filter (fun p => p.1 != stringifiedFilter) },
       r.2.1)
    else
      ({ s with filterMap := assocSet s.filterMap stringifiedFilter r.1 }, r.2.1)

/-- Claim C10: starting from a dispatcher with no filter groups, two
registrations with a null filter by distinct listeners both canonicalize to
the stringified DEFAULT_FILTER key, share a single ListenerGroup holding both
listeners in insertion order, and cause exactly one SUBSCRIBE request in
total; removing with a null filter targets that same group. -/
theorem C10_theorem (s : EventsManagerState) (L1 L2 : Nat)
    (hempty : s.filterMap = []) (hne : L1 ≠ L2) :
    ((MapEventsManager.registerFilterListener s L1 none false).1.filterMap.map Prod.fst
        = [Filter.stringify MapEventsManager.DEFAULT_FILTER])
    ∧ ((MapEventsManager.registerFilterListener
          (MapEventsManager.registerFilterListener s L1 none false).1
          L2 none false).1.filterMap.map Prod.fst
        = [Filter.stringify MapEventsManager.DEFAULT_FILTER])
    ∧ (((MapEventsManager.registerFilterListener
          (MapEventsManager.registerFilterListener s L1 none false).1
          L2 none false).1.filterMap.lookup
            (Filter.stringify MapEventsManager.DEFAULT_FILTER)).map
          ListenerGroup.listeners
        = some [(L1, false), (L2, false)])
    ∧ ((MapEventsManager.registerFilterListener s L1 none false).2 ++
        (MapEventsManager.registerFilterListener
          (MapEventsManager.registerFilterListener s L1 none false).1
          L2 none false).2
        = [SubRequest.subscribe false])
    ∧ (((MapEventsManager.removeFilterListener
          (MapEventsManager.registerFilterListener
            (MapEventsManager.registerFilterListener s L1 none false).1
            L2 none false).1
          L1 none).1.filterMap.lookup
            (Filter.stringify MapEventsManager.DEFAULT_FILTER)).map
          ListenerGroup.listeners
        = some [(L2, false)]) := by
  have h21 : (L2 == L1) = false := beq_eq_false_iff_ne.mpr (fun h => hne h.symm)
  have h12 : (L1 == L2) = false := beq_eq_false_iff_ne.mpr hne
  have hne21 : ¬ (L2 = L1) := fun h => hne h.symm
  refine ⟨?_, ?_, ?_, ?_, ?_⟩ <;>
    simp [MapEventsManager.registerFilterListener, MapEventsManager.removeFilterListener,
      ListenerGroup.addListener, ListenerGroup.removeListener, ListenerGroup.new,
      assocSet, hempty, List.lookup, h21, h12, hne, hne21, bne]

/-- Claim C10 witness: the concrete dispatcher state with listeners 0 and 1;
the two null-filter registrations yield one SUBSCRIBE request in total. -/
theorem C10_witness :
    (MapEventsManager.registerFilterListener sampleManagerState 0 none false).2 ++
      (MapEventsManager.registerFilterListener
        (MapEventsManager.registerFilterListener sampleManagerState 0 none false).1
        1 none false).2
      = [SubRequest.subscribe false] :=
  (C10_theorem sampleManagerState 0 1 rfl (by decide)).2.2.2.1

/-- NamedCacheClient.get response handling: on error the promise is rejected
(no resolution); otherwise, when the payload is non-empty, resolve is called
with the decoded value and then — the code falls through — called again with
null; when the payload is empty only resolve(null) runs. The list records
every resolve call in order; the payload stands for the decoded value. -/
def NamedCacheClient.getResolutions (err : Option Nat) (value : List Nat) :
    List (Option (List Nat)) :=
  match err with
  | some _ => []
  | none =>
    if value.length > 0 then [some value, none]
    else [none]

/-- NamedCacheClient.put response handling, identical in structure to get. -/
def NamedCacheClient.putResolutions (err : Option Nat) (value : List Nat) :
    List (Option (List Nat)) :=
  match err with
  | some _ => []
  | none =>
    if value.length > 0 then [some value, none]
    else [none]

/-- Promise semantics: the first resolution wins. -/
def promiseOutcome (rs : List (Option (List Nat))) : Option (Option (List Nat)) :=
  rs.head?

/-- Claim C6, counterexample: with an empty value payload and no error, get
and put each call resolve exactly once (with null), not twice, so the claim
that an empty payload leads to a double resolution whose first resolution
yields a value is false. -/
theorem C6_counterexample :
    (NamedCacheClient.getResolutions none []).length ≠ 2
    ∧ NamedCacheClient.getResolutions none [] = [none]
    ∧ (NamedCacheClient.putResolutions none []).length ≠ 2
    ∧ NamedCacheClient.putResolutions none [] = [none] := by
  refine ⟨?_, rfl, ?_, rfl⟩ <;> decide

/-- Claim C6 (amended): it is the non-empty payload that is resolved twice —
first with the decoded value, which wins, then with null — while an empty
payload yields exactly one resolution, to null, for both get and put. -/
theorem C6_theorem (v : List Nat) (hv : v ≠ []) :
    NamedCacheClient.getResolutions none v = [some v, none]
    ∧ promiseOutcome (NamedCacheClient.getResolutions none v) = some (some v)
    ∧ NamedCacheClient.getResolutions none [] = [none]
    ∧ NamedCacheClient.putResolutions none v = [some v, none]
    ∧ promiseOutcome (NamedCacheClient.putResolutions none v) = some (some v)
    ∧ NamedCacheClient.putResolutions none [] = [none] := by
  have hlen : 0 < v.length := List.length_pos.mpr hv
  unfold NamedCacheClient.getResolutions NamedCacheClient.putResolutions
  rw [if_pos hlen]
  exact ⟨rfl, rfl, rfl, rfl, rfl, rfl⟩

/-- Claim C6 amended-theorem witness at a concrete one-byte payload. -/
theorem C6_witness :
    NamedCacheClient.getResolutions none [49] = [some [49], none]
    ∧ promiseOutcome (NamedCacheClient.putResolutions none [49]) = some (some [49]) :=
  ⟨(C6_theorem [49] (by decide)).1, (C6_theorem [49] (by decide)).2.2.2.2.1⟩

/-- Effects on the event stream performed by the dispatcher when sending a
subscription request: inserting the completion callback into the
pending-subscriptions map under the request uid, and writing the request to
the stream. -/
inductive StreamAction
| setPending (uid : String)
| writeStream (uid : String)
deriving DecidableEq

/-- Effect order of MapEventsManager.writeRequest: the pending callback is
registered under request.getUid() and then the request is written. -/
def MapEventsManager.writeRequestActions (uid : String) : List StreamAction :=
  [StreamAction.setPending uid, StreamAction.writeStream uid]

/-- Effect order of MapEventsManager.ensureStream: when the stream promise
already exists nothing is sent; otherwise the pending callback for the INIT
request uid is registered and then the INIT request is written. -/
def MapEventsManager.ensureStreamActions (streamExists : Bool) (initUid : String) :
    List StreamAction :=
  if streamExists then []
  else [StreamAction.setPending initUid, StreamAction.writeStream initUid]

/-- An action trace is append-then-send when every write of a request uid is
preceded by the registration of the pending callback for that uid. -/
def appendThenSend (actions : List StreamAction) : Prop :=
  ∀ (u : String) (i : Nat), actions.get? i = some (StreamAction.writeStream u) →
    ∃ j, j < i ∧ actions.get? j = some (StreamAction.setPending u)

/-- Claim C7: both the INIT request of ensureStream and every request sent by
writeRequest insert the completion callback into the pending-subscriptions
map, keyed by the request uid, before the request is written to the stream. -/
theorem C7_theorem (uid : String) :
    appendThenSend (MapEventsManager.writeRequestActions uid)
    ∧ ∀ (streamExists : Bool),
        appendThenSend (MapEventsManager.ensureStreamActions streamExists uid) := by
  constructor
  · intro u i hi
    match i, hi with
    | 1, hi =>
      refine ⟨0, by omega, ?_⟩
      simp only [MapEventsManager.writeRequestActions, List.get?] at hi ⊢
      cases hi
      rfl
  · intro streamExists
    cases streamExists with
    | true =>
      intro u i hi
      cases i <;> cases hi
    | false =>
      intro u i hi
      match i, hi with
      | 1, hi =>
        refine ⟨0, by omega, ?_⟩
        simp only [MapEventsManager.ensureStreamActions, List.get?] at hi ⊢
        cases hi
        rfl

/-- Claim C7 witness: for the concrete uid "uid-1" the write at position 1 of
the writeRequest trace is preceded by the pending registration at position 0. -/
theorem C7_witness :
    ∃ j, j < 1 ∧ (MapEventsManager.writeRequestActions "uid-1").get? j
      = some (StreamAction.setPending "uid-1") := by
  have h := C7_theorem "uid-1"
  exact h.1 "uid-1" 1 rfl

/-- TlsOptions state: the lock flag, the enabled flag and the three
certificate paths. -/
structure TlsOptionsState where
  locked : Bool
  enabled : Bool
  caCertPath : Option String
  clientCertPath : Option String
  clientKeyPath : Option String
deriving DecidableEq

/-- A freshly constructed TlsOptions: unlocked, disabled, no paths. -/
def TlsOptions.new : TlsOptionsState :=
  { locked := false, enabled := false, caCertPath := none,
    clientCertPath := none, clientKeyPath := none }

/-- TlsOptions enabled setter: a locked instance returns unchanged. -/
def TlsOptions.setEnabled (t : TlsOptionsState) (value : Bool) : TlsOptionsState :=
  if t.locked then t else { t with enabled := value }

/-- TlsOptions caCertPath setter: a locked instance returns unchanged. -/
def TlsOptions.setCaCertPath (t : TlsOptionsState) (value : Option String) :
    TlsOptionsState :=
  if t.locked then t else { t with caCertPath := value }

/-- TlsOptions clientCertPath setter: a locked instance returns unchanged. -/
def TlsOptions.setClientCertPath (t : TlsOptionsState) (value : Option String) :
    TlsOptionsState :=
  if t.locked then t else { t with clientCertPath := value }

/-- TlsOptions clientKeyPath setter: a locked instance returns unchanged. -/
def TlsOptions.setClientKeyPath (t : TlsOptionsState) (value : Option String) :
    TlsOptionsState :=
  if t.locked then t else { t with clientKeyPath := value }

/-- TlsOptions.lock: no further mutations are accepted. -/
def TlsOptions.lock (t : TlsOptionsState) : TlsOptionsState :=
  { t with locked := true }

/-- Session.DEFAULT_ADDRESS. -/
def Session.DEFAULT_ADDRESS : String := "localhost:1408"

/-- Session.DEFAULT_REQUEST_TIMEOUT in milliseconds. -/
def Session.DEFAULT_REQUEST_TIMEOUT : Nat := 60000

/-- Session.DEFAULT_FORMAT. -/
def Session.DEFAULT_FORMAT : String := "json"

/-- Options state: the lock flag, the address, the request timeout (none
models POSITIVE_INFINITY), the fixed serialization format, an opaque handle
for the callOptions function, and the TLS sub-options. -/
structure OptionsState where
  locked : Bool
  address : String
  requestTimeoutInMillis : Option Nat
  format : String
  callOptionsId : Nat
  tls : TlsOptionsState
deriving DecidableEq

/-- The Options constructor: defaults with a fresh TlsOptions, unlocked. -/
def Options.new : OptionsState :=
  { locked := false
    address := Session.DEFAULT_ADDRESS
    requestTimeoutInMillis := some Session.DEFAULT_REQUEST_TIMEOUT
    format := Session.DEFAULT_FORMAT
    callOptionsId := 0
    tls := TlsOptions.new }

/-- One-to-five digit run check for the address pattern. -/
def digitsRun (l : List Char) : Bool :=
  decide (1 ≤ l.length) && decide (l.length ≤ 5) && l.all (fun c => c.isDigit)

/-- Options.ADDRESS_REGEXP test for the unanchored-start, end-anchored
pattern of one or more non-whitespace characters, a colon, then one to five
digits: a match exists exactly when some colon is preceded by a
non-whitespace character and followed by one to five digits running to the
end of the string. -/
def addressFormatOk (address : String) : Bool :=
  (List.range address.data.length).any fun i =>
    decide (address.data.get? i = some ':') &&
    (match address.data.get? (i - 1) with
     | some c => decide (1 ≤ i) && !c.isWhitespace
     | none => false) &&
    digitsRun (address.data.drop (i + 1))

/-- Options address setter: a locked instance returns unchanged (silently);
otherwise an address failing the pattern raises, and a valid one is stored. -/
def Options.setAddress (o : OptionsState) (address : String) :
    Except String OptionsState :=
  if o.locked then Except.ok o
  else if addressFormatOk address then Except.ok { o with address := address }
  else Except.error ("Expected address format is <hostname>:<port>. Configured: " ++ address)

/-- Options request-timeout setter: a locked instance returns unchanged; a
non-positive timeout becomes unbounded. -/
def Options.setRequestTimeout (o : OptionsState) (timeout : Int) : OptionsState :=
  if o.locked then o
  else if timeout ≤ 0 then { o with requestTimeoutInMillis := none }
  else { o with requestTimeoutInMillis := some timeout.toNat }

/-- Options callOptions setter: a locked instance returns unchanged. -/
def Options.setCallOptions (o : OptionsState) (callOptionsId : Nat) : OptionsState :=
  if o.locked then o else { o with callOptionsId := callOptionsId }

/-- Options.lock: locks the instance and its TLS sub-options. -/
def Options.lock (o : OptionsState) : OptionsState :=
  { o with locked := true, tls := TlsOptions.lock o.tls }

/-- Session constructor configuration handling: the provided Options instance
(or the shared default instance) is stored as-is. The constructor reads the
TLS settings and address to build the credentials and the channel, but it
never calls Options.lock, so the stored object keeps its locked flag — and
the caller keeps a mutable reference to it. -/
def Session.constructOptions (sessionOptions : Option OptionsState) : OptionsState :=
  match sessionOptions with
  | some o => o
  | none => Options.new

/-- Options mutators are rejected on a locked instance: the state returned is
unchanged. This is the machinery Options.lock provides — the Session
constructor merely never invokes it. -/
lemma Options.locked_setters_reject (o : OptionsState) (h : o.locked = true)
    (a : String) (t : Int) (c : Nat) (b : Bool) (p : Option String) :
    Options.setAddress o a = Except.ok o
    ∧ Options.setRequestTimeout o t = o
    ∧ Options.setCallOptions o c = o
    ∧ (o.tls.locked = true →
        TlsOptions.setEnabled o.tls b = o.tls
        ∧ TlsOptions.setCaCertPath o.tls p = o.tls
        ∧ TlsOptions.setClientCertPath o.tls p = o.tls
        ∧ TlsOptions.setClientKeyPath o.tls p = o.tls) := by
  refine ⟨?_, ?_, ?_, ?_⟩
  · unfold Options.setAddress; rw [if_pos h]
  · unfold Options.setRequestTimeout; rw [if_pos h]
  · unfold Options.setCallOptions; rw [if_pos h]
  · intro htls
    refine ⟨?_, ?_, ?_, ?_⟩ <;>
      simp only [TlsOptions.setEnabled, TlsOptions.setCaCertPath,
        TlsOptions.setClientCertPath, TlsOptions.setClientKeyPath, htls, if_pos]

/-- Claim C8, evaluation at the failing input: a Session constructed from a
fresh Options instance leaves it unlocked, so a subsequent address mutation
is accepted and changes the configuration value the session observes
(Session.address reads the live options object), contradicting the claim
that every mutation after construction is rejected. -/
theorem C8_theorem :
    (Session.constructOptions (some Options.new)).locked = false
    ∧ Options.setAddress (Session.constructOptions (some Options.new)) "example.com:9999"
        = Except.ok { Session.constructOptions (some Options.new) with
            address := "example.com:9999" }
    ∧ ({ Session.constructOptions (some Options.new) with
          address := "example.com:9999" } : OptionsState).address
        ≠ (Session.constructOptions (some Options.new)).address
    ∧ (TlsOptions.setEnabled (Session.constructOptions (some Options.new)).tls true).enabled
        = true := by
  refine ⟨rfl, ?_, by decide, rfl⟩
  unfold Options.setAddress
  rw [if_neg (by decide), if_pos (by decide)]

/-- Events the Session emits: cache-level RELEASED (identified here by the
registry key), cache-level DESTROYED, and the session-level CLOSED event. -/
inductive SessionEmit
| released (cacheKey : String)
| destroyed (cacheName : String)
| sessionClosed
deriving DecidableEq

/-- Test for the session-level CLOSED emission. -/
def SessionEmit.isSessionClosed : SessionEmit → Bool
| .sessionClosed => true
| _ => false

/-- Session state: the two close flags, the cache registry (keys of the form
name:format mapped to opaque NamedCacheClient identities), the channel state
and a fresh-identity counter. -/
structure SessionState where
  markedForClose : Bool
  closed : Bool
  caches : List (String × Nat)
  channelOpen : Bool
  nextId : Nat
deriving DecidableEq

/-- The handlers the Session constructor installs for RELEASED, DESTROYED and
CLOSED events: when close was requested and no caches remain, the closed flag
is set and the sessionClosedPromise resolves. -/
def Session.handleLifecycleEmit (s : SessionState) : SessionState :=
  if (s.markedForClose && s.caches.isEmpty) = true then { s with closed := true } else s

/-- Modelled from the spec: NamedCacheClient.release (not under src/) severs
the event stream and emits the released event for the cache; the handler
attached in Session.setupEventHandlers then deletes the registry entry and
re-emits released on the session, which runs the lifecycle handler above.
This function performs that sequence for every entry of the close loop. -/
def Session.releaseAll (st : SessionState) :
    List (String × Nat) → SessionState × List SessionEmit
| [] => (st, [])
| kv :: rest =>
  let r := Session.releaseAll
    (Session.handleLifecycleEmit
      { st with caches := st.caches.filter (fun p => p.1 != kv.1) }) rest
  (r.1, SessionEmit.released kv.1 :: r.2)

/-- Session.close: a second call returns immediately because markedForClose
is already set; otherwise the session is marked for close, every registry
cache is released in turn, the channel is closed and the session CLOSED event
is emitted, running the lifecycle handler. -/
def Session.close (s : SessionState) : SessionState × List SessionEmit :=
  if s.markedForClose = true then (s, [])
  else
    (Session.handleLifecycleEmit
      { (Session.releaseAll { s with markedForClose := true } s.caches).1 with
          channelOpen := false },
     (Session.releaseAll { s with markedForClose := true } s.caches).2 ++
       [SessionEmit.sessionClosed])

/-- Session.makeCacheKey: the composite registry key. -/
def Session.makeCacheKey (cacheName format : String) : String :=
  cacheName ++ ":" ++ format

/-- Session.isKeyForCacheName: a registry key belongs to a cache name when it
starts with the name followed by a colon. -/
def Session.isKeyForCacheName (key cacheName : String) : Bool :=
  key.startsWith (cacheName ++ ":")

/-- Session.getCache: rejected while closing or after close; otherwise the
registry is consulted under makeCacheKey(name, format) and a hit returns the
cached client unchanged, while a miss creates a fresh client, registers it
and returns it. -/
def Session.getCache (s : SessionState) (name format : String) :
    Except String (SessionState × Nat) :=
  if s.markedForClose = true then Except.error "Session is closing"
  else if s.closed = true then Except.error "Session has been closed"
  else
    match s.caches.lookup (Session.makeCacheKey name format) with
    | some id => Except.ok (s, id)
    | none =>
      Except.ok
        ({ s with
            caches := s.caches ++ [(Session.makeCacheKey name format, s.nextId)]
            nextId := s.nextId + 1 },
         s.nextId)

/-- The DESTROYED handler attached in Session.setupEventHandlers: every
registry key starting with cacheName followed by a colon is deleted, and a
session-level DESTROYED event is emitted per deleted entry. -/
def Session.destroyedHandler (s : SessionState) (cacheName : String) :
    SessionState × List SessionEmit :=
  ({ s with
      caches := s.caches.filter (fun p => !(Session.isKeyForCacheName p.1 cacheName)) },
   (s.caches.filter (fun p => Session.isKeyForCacheName p.1 cacheName)).map
     (fun _ => SessionEmit.destroyed cacheName))

lemma handleLifecycleEmit_caches (s : SessionState) :
    (Session.handleLifecycleEmit s).caches = s.caches := by
  unfold Session.handleLifecycleEmit
  split <;> rfl

lemma handleLifecycleEmit_marked (s : SessionState) :
    (Session.handleLifecycleEmit s).markedForClose = s.markedForClose := by
  unfold Session.handleLifecycleEmit
  split <;> rfl

lemma releaseAll_marked (st : SessionState) (l : List (String × Nat)) :
    (Session.releaseAll st l).1.markedForClose = st.markedForClose := by
  induction l generalizing st with
  | nil => rfl
  | cons kv rest ih =>
    simp only [Session.releaseAll]
    rw [ih, handleLifecycleEmit_marked]

lemma releaseAll_caches_nil (st : SessionState) (l : List (String × Nat))
    (h : ∀ p ∈ st.caches, p.1 ∈ l.map Prod.fst) :
    (Session.releaseAll st l).1.caches = [] := by
  induction l generalizing st with
  | nil =>
    simp only [Session.releaseAll]
    cases hc : st.caches with
    | nil => rfl
    | cons p t =>
      have := h p (by rw [hc]; exact List.mem_cons_self _ _)
      simp at this
  | cons kv rest ih =>
    simp only [Session.releaseAll]
    apply ih
    intro p hp
    rw [handleLifecycleEmit_caches] at hp
    have hp2 := List.mem_filter.mp hp
    have hne : p.1 ≠ kv.1 := by
      have hb := hp2.2
      simpa [bne] using hb
    have hin := h p hp2.1
    simp only [List.map_cons, List.mem_cons] at hin
    rcases hin with h1 | h1
    · exact absurd h1 hne
    · exact h1

lemma releaseAll_countP (st : SessionState) (l : List (String × Nat)) :
    ((Session.releaseAll st l).2.countP SessionEmit.isSessionClosed) = 0 := by
  induction l generalizing st with
  | nil => rfl
  | cons kv rest ih =>
    simp only [Session.releaseAll, List.countP_cons, ih]
    rfl

lemma close_not_marked (s : SessionState) (h : s.markedForClose = false) :
    Session.close s =
      (Session.handleLifecycleEmit
        { (Session.releaseAll { s with markedForClose := true } s.caches).1 with
            channelOpen := false },
       (Session.releaseAll { s with markedForClose := true } s.caches).2 ++
         [SessionEmit.sessionClosed]) := by
  unfold Session.close
  rw [if_neg (by simp [h])]

lemma close_marked (s : SessionState) (h : s.markedForClose = true) :
    Session.close s = (s, []) := by
  unfold Session.close
  rw [if_pos h]

/-- Claim C4: closing a session twice emits the session CLOSED event exactly
once, the closed flag is true after the first close completes, and the second
call returns immediately — same state, no emissions, so no cache release and
no second channel close. -/
theorem C4_theorem (s : SessionState) (h : s.markedForClose = false) :
    (((Session.close s).2 ++ (Session.close (Session.close s).1).2).countP
        SessionEmit.isSessionClosed = 1)
    ∧ (Session.close s).1.closed = true
    ∧ Session.close (Session.close s).1 = ((Session.close s).1, []) := by
  have hrel_caches :
      (Session.releaseAll { s with markedForClose := true } s.caches).1.caches = [] :=
    releaseAll_caches_nil _ _ (fun p hp => List.mem_map_of_mem Prod.fst hp)
  have hrel_marked :
      (Session.releaseAll { s with markedForClose := true } s.caches).1.markedForClose
        = true := by
    rw [releaseAll_marked]
  have hfirst := close_not_marked s h
  have hcond :
      ((({ (Session.releaseAll { s with markedForClose := true } s.caches).1 with
          channelOpen := false } : SessionState).markedForClose
        && ({ (Session.releaseAll { s with markedForClose := true } s.caches).1 with
          channelOpen := false } : SessionState).caches.isEmpty) = true) := by
    simp [hrel_marked, hrel_caches]
  have hlifted :
      Session.handleLifecycleEmit
        { (Session.releaseAll { s with markedForClose := true } s.caches).1 with
            channelOpen := false }
      = { { (Session.releaseAll { s with markedForClose := true } s.caches).1 with
            channelOpen := false } with closed := true } := by
    unfold Session.handleLifecycleEmit
    rw [if_pos hcond]
  have hm2 : (Session.close s).1.markedForClose = true := by
    rw [hfirst]
    show (Session.handleLifecycleEmit _).markedForClose = true
    rw [handleLifecycleEmit_marked]
    exact hrel_marked
  refine ⟨?_, ?_, ?_⟩
  · rw [hfirst, close_marked _ ?_]
    · simp [List.countP_append, List.countP_cons, releaseAll_countP,
        SessionEmit.isSessionClosed]
    · rw [← hfirst]
      exact hm2
  · rw [hfirst]
    show (Session.handleLifecycleEmit _).closed = true
    rw [hlifted]
  · exact close_marked _ hm2

/-- Concrete session with one registered cache used by the C4 witness. -/
def c4State : SessionState :=
  { markedForClose := false, closed := false,
    caches := [("orders:json", 0)], channelOpen := true, nextId := 1 }

/-- Claim C4 witness at the concrete one-cache session. -/
theorem C4_witness :
    (Session.close c4State).1.closed = true
    ∧ Session.close (Session.close c4State).1 = ((Session.close c4State).1, []) :=
  ⟨(C4_theorem c4State rfl).2.1, (C4_theorem c4State rfl).2.2⟩

instance {ε α : Type} [DecidableEq ε] [DecidableEq α] : DecidableEq (Except ε α) :=
  fun a b =>
    match a, b with
    | .ok x, .ok y =>
      if h : x = y then isTrue (by rw [h])
      else isFalse (by intro he; cases he; exact h rfl)
    | .error x, .error y =>
      if h : x = y then isTrue (by rw [h])
      else isFalse (by intro he; cases he; exact h rfl)
    | .ok _, .error _ => isFalse (by intro he; cases he)
    | .error _, .ok _ => isFalse (by intro he; cases he)

lemma lookup_append_singleton_of_none {α β : Type} [DecidableEq α]
    {m : List (α × β)} {k : α} (h : m.lookup k = none) (kv : α × β) :
    (m ++ [kv]).lookup k = List.lookup k [kv] := by
  induction m with
  | nil => rfl
  | cons a t ih =>
    obtain ⟨k1, v1⟩ := a
    simp only [List.lookup] at h
    rw [List.cons_append]
    simp only [List.lookup]
    cases hbeq : (k == k1) with
    | true =>
      rw [hbeq] at h
      cases h
    | false =>
      rw [hbeq] at h
      exact ih h

/-- Claim C9: the registry key is the plain concatenation name, colon,
format, so the colliding pairs ("a:b", "c") and ("a", "b:c") share one key;
for any two pairs with equal keys, on an open session the second getCache
call returns the identity-same client and leaves the state unchanged; and the
DESTROYED handler for cache name N removes exactly the registry entries whose
key starts with N followed by a colon. -/
theorem C9_theorem (s : SessionState) (n1 f1 n2 f2 : String)
    (hm : s.markedForClose = false) (hc : s.closed = false)
    (hkey : Session.makeCacheKey n1 f1 = Session.makeCacheKey n2 f2) :
    (Session.makeCacheKey "a:b" "c" = Session.makeCacheKey "a" "b:c")
    ∧ (∀ s1 id, Session.getCache s n1 f1 = Except.ok (s1, id) →
        Session.getCache s1 n2 f2 = Except.ok (s1, id))
    ∧ (∀ N p, p ∈ (Session.destroyedHandler s N).1.caches ↔
        (p ∈ s.caches ∧ p.1.startsWith (N ++ ":") = false)) := by
  refine ⟨by decide, ?_, ?_⟩
  · intro s1 id hget
    unfold Session.getCache at hget ⊢
    rw [if_neg (by rw [hm]; simp), if_neg (by rw [hc]; simp)] at hget
    cases hlook : s.caches.lookup (Session.makeCacheKey n1 f1) with
    | some id0 =>
      rw [hlook] at hget
      injection hget with h2
      rw [Prod.mk.injEq] at h2
      obtain ⟨hs, hid⟩ := h2
      subst hs
      subst hid
      rw [if_neg (by rw [hm]; simp), if_neg (by rw [hc]; simp), ← hkey, hlook]
    | none =>
      rw [hlook] at hget
      injection hget with h2
      rw [Prod.mk.injEq] at h2
      obtain ⟨hs, hid⟩ := h2
      subst hs
      subst hid
      rw [if_neg (by rw [hm]; simp), if_neg (by rw [hc]; simp), ← hkey]
      show (match (s.caches ++ [(Session.makeCacheKey n1 f1, s.nextId)]).lookup
          (Session.makeCacheKey n1 f1) with
        | some id => Except.ok (_, id)
        | none => _) = _
      rw [lookup_append_singleton_of_none hlook]
      simp only [List.lookup, beq_self_eq_true]
  · intro N p
    unfold Session.destroyedHandler
    show p ∈ s.caches.filter (fun p => !(Session.isKeyForCacheName p.1 N)) ↔ _
    rw [List.mem_filter]
    unfold Session.isKeyForCacheName
    constructor
    · rintro ⟨h1, h2⟩
      refine ⟨h1, ?_⟩
      cases hsw : p.1.startsWith (N ++ ":") with
      | false => rfl
      | true => rw [hsw] at h2; cases h2
    · rintro ⟨h1, h2⟩
      exact ⟨h1, by rw [h2]; rfl⟩

/-- Empty open session used by the C9 witness. -/
def c9Empty : SessionState :=
  { markedForClose := false, closed := false, caches := [],
    channelOpen := true, nextId := 0 }

/-- Session state after getCache("a:b", "c") on the empty session: the
registry holds the single key "a:b:c". -/
def c9After : SessionState :=
  { markedForClose := false, closed := false, caches := [("a:b:c", 0)],
    channelOpen := true, nextId := 1 }

/-- Claim C9 witness: getCache("a", "b:c") after getCache("a:b", "c") returns
the identity-same client 0 and leaves the registry unchanged. -/
theorem C9_witness :
    Session.getCache c9After "a" "b:c" = Except.ok (c9After, 0) :=
  (C9_theorem c9Empty "a:b" "c" "a" "b:c" rfl rfl (by decide)).2.1 c9After 0 (by decide)

end Coherence
